import Mathlib

/-!
Verification of the Squarespace WCAG utilities (ext237/squarespace-wcag-utils).

Shallow embedding of the heuristic autocomplete classifier (`guessToken`),
the per-control enhancement pass (`applyEnhancements`), the bounded retry
scheduler (`scanWithRetries`), the trace-attribute helpers
(`createTraceDataAttr`, `appendDataTraceAttr`), the per-element steps of the
marker-guarded fix routines, and the catch-and-continue fix runner.

Strings are modelled through their character lists; JS regular expressions
used by the source are embedded as explicit decidable scanners.  DOM state
relevant to a single form control or link is captured as a record of its
attributes; DOM lookups performed by the source (label association, wrapper
classes, closest heading) appear as fields holding the text those lookups
would produce at call time.
-/

namespace SqspWcag

/-- Models `(s || "")` applied to a nullable attribute value. -/
def optStr : Option String → String
  | some s => s
  | none => ""

/-- The delimiter class of `normalize`: the regex `[_\-:/\\]`. -/
def isDelimChar (c : Char) : Bool :=
  c = '_' || c = '-' || c = ':' || c = '/' || c = '\\'

/-- ASCII whitespace, modelling the JS `\s` class on the inputs in scope. -/
def isJsSpace (c : Char) : Bool :=
  c = ' ' || c = '\t' || c = '\n' || c = '\r' || c = '\x0b' || c = '\x0c'

/-- Replace every maximal run of characters satisfying `p` by one space,
modelling `.replace(/X+/g, " ")`.  The flag records whether the previous
character was part of such a run. -/
def collapseRuns (p : Char → Bool) : List Char → Bool → List Char
  | [], _ => []
  | c :: rest, inRun =>
    if p c then
      if inRun then collapseRuns p rest true
      else ' ' :: collapseRuns p rest true
    else c :: collapseRuns p rest false

/-- Drop leading and trailing whitespace, modelling `String.prototype.trim`. -/
def trimChars (s : List Char) : List Char :=
  ((s.dropWhile isJsSpace).reverse.dropWhile isJsSpace).reverse

/-- `String.prototype.trim`. -/
def jsTrim (s : String) : String :=
  ⟨trimChars s.data⟩

/-- `String.prototype.toLowerCase` on the ASCII inputs in scope. -/
def toLowerS (s : String) : String :=
  ⟨s.data.map Char.toLower⟩

/-- `normalize(s)` from the source: delimiter runs to one space, whitespace
runs to one space, trim, lowercase. -/
def normalize (s : String) : String :=
  toLowerS ⟨trimChars (collapseRuns isJsSpace (collapseRuns isDelimChar s.data false) false)⟩

/-- The JS word-character class `\w`, that is `[A-Za-z0-9_]`. -/
def isWordChar (c : Char) : Bool :=
  c.isAlpha || c.isDigit || c = '_'

/-- If `w` is a prefix of `s`, return what remains of `s` after it. -/
def restAfter : List Char → List Char → Option (List Char)
  | [], s => some s
  | _ :: _, [] => none
  | c :: w, d :: s => if c = d then restAfter w s else none

/-- Whether `w` is a prefix of `s` (used for `String.prototype.startsWith`). -/
def isPrefixL (w s : List Char) : Bool :=
  (restAfter w s).isSome

/-- `s.startsWith(p)`. -/
def strStartsWith (s p : String) : Bool :=
  isPrefixL p.data s.data

/-- Whether `sub` occurs somewhere in `s` (used for `String.prototype.includes`). -/
def containsSub : List Char → List Char → Bool
  | s, sub =>
    isPrefixL sub s ||
      match s with
      | [] => false
      | _ :: rest => containsSub rest sub

/-- `s.includes(sub)`. -/
def strIncludes (s sub : String) : Bool :=
  containsSub s.data sub.data

/-- `w` occurs at the head of `s` and is followed by a non-word character or
the end of the string (the `(\W|$)` tail of the `hasWord` regex). -/
def matchHereW (w s : List Char) : Bool :=
  match restAfter w s with
  | none => false
  | some [] => true
  | some (c :: _) => !isWordChar c

/-- Scan of `s` for a match of `(^|\W)w(\W|$)`; the flag is true when the
current position is the start of the string or preceded by a non-word
character. -/
def hasWordAux (w : List Char) : List Char → Bool → Bool
  | [], atB => atB && matchHereW w []
  | c :: rest, atB => (atB && matchHereW w (c :: rest)) || hasWordAux w rest (!isWordChar c)

/-- `hasWord(s, w)` from the source: `new RegExp("(^|\\W)" + w + "(\\W|$)").test(s)`
for the literal words the source passes. -/
def hasWord (s w : String) : Bool :=
  hasWordAux w.data s.data true

/-- Generic scan: some suffix of `s` whose start lies at a `\b` boundary
satisfies `p`.  The flag is true when the position follows a non-word
character or is the start. -/
def searchAtBoundary (p : List Char → Bool) : List Char → Bool → Bool
  | [], atB => atB && p []
  | c :: rest, atB => (atB && p (c :: rest)) || searchAtBoundary p rest (!isWordChar c)

/-- Generic scan with no boundary requirement at the start of the match. -/
def searchAnywhere (p : List Char → Bool) : List Char → Bool
  | [] => p []
  | c :: rest => p (c :: rest) || searchAnywhere p rest

/-- At this position: `addr(?:ess)?\s*D\b` for the digit `d`. -/
def addrOptAt (d : Char) (s : List Char) : Bool :=
  match restAfter ['a', 'd', 'd', 'r'] s with
  | none => false
  | some rest =>
    let afterEss :=
      match restAfter ['e', 's', 's'] rest with
      | some r => r
      | none => rest
    match afterEss.dropWhile isJsSpace with
    | [] => false
    | c :: r3 => c = d && (match r3 with
      | [] => true
      | e :: _ => !isWordChar e)

/-- The regex `/\baddr(?:ess)?\s*1\b/` of the address-line1 rule. -/
def reAddrOpt1 (s : String) : Bool :=
  searchAtBoundary (addrOptAt '1') s.data true

/-- The regex `/\baddr(?:ess)?\s*2\b/` of the address-line2 rule. -/
def reAddrOpt2 (s : String) : Bool :=
  searchAtBoundary (addrOptAt '2') s.data true

/-- At this position: `address\s*1\b`. -/
def addressSp1At (s : List Char) : Bool :=
  match restAfter ['a', 'd', 'd', 'r', 'e', 's', 's'] s with
  | none => false
  | some rest =>
    match rest.dropWhile isJsSpace with
    | [] => false
    | c :: r3 => c = '1' && (match r3 with
      | [] => true
      | e :: _ => !isWordChar e)

/-- The regex `/address\s*1\b/` of the address-line1 rule. -/
def reAddress1 (s : String) : Bool :=
  searchAnywhere addressSp1At s.data

/-- At this position: `line\b`. -/
def lineAt (s : List Char) : Bool :=
  match restAfter ['l', 'i', 'n', 'e'] s with
  | none => false
  | some [] => true
  | some (c :: _) => !isWordChar c

/-- The regex `/\bline\b/` of the street-address rule. -/
def reLine (s : String) : Bool :=
  searchAtBoundary lineAt s.data true

/-- `parts.join(" ")` of a JS array of strings. -/
def joinSpace : List String → String
  | [] => ""
  | [s] => s
  | s :: rest => s ++ " " ++ joinSpace rest

/-- A form control as `guessToken` and `applyEnhancements` see it: the
attributes read and written by the source, plus the text that the DOM
lookups of `getLabelText` would produce for it at call time. -/
structure FormControl where
  /-- The `el.type` property (the DOM already lowercases it for inputs). -/
  type : String
  /-- Text of `label[for=id]` for this control, when such a label exists. -/
  forLabelText : Option String
  /-- Text of `el.closest("label")`, when the control is wrapped in a label. -/
  wrapLabelText : Option String
  /-- Texts of the elements referenced by `aria-labelledby`, in order. -/
  ariaLabelledbyTexts : List String
  /-- `className` of `el.closest(".form-item.field")`, when present. -/
  fieldWrapClassName : Option String
  /-- The `name` attribute (`getAttribute` returns null when absent). -/
  name : Option String
  /-- The `id` property (empty when absent). -/
  id : String
  /-- The `placeholder` attribute. -/
  placeholder : Option String
  /-- The `autocomplete` attribute. -/
  autocomplete : Option String
  /-- The `inputmode` attribute. -/
  inputmode : Option String
  /-- The `autocapitalize` attribute. -/
  autocapitalize : Option String
  /-- `el.dataset.autocompleteFixed`, the HAS_RUN_MARK idempotency marker. -/
  autocompleteFixed : Option String
deriving DecidableEq

/-- `getLabelText(el)` from the source: concatenate the for-label text, the
wrapping-label text, the `aria-labelledby` texts and the field-wrapper class
list, each preceded by one space, and normalize the result.  The for-label
lookup only happens when `el.id` is truthy, and the class-list contribution
only when `className` is truthy. -/
def getLabelText (el : FormControl) : String :=
  let t1 := if el.id ≠ "" then
      match el.forLabelText with
      | some s => " " ++ s
      | none => ""
    else ""
  let t2 := match el.wrapLabelText with
    | some s => " " ++ s
    | none => ""
  let t3 := (el.ariaLabelledbyTexts.map (fun s => " " ++ s)).foldl (· ++ ·) ""
  let t4 := match el.fieldWrapClassName with
    | some c => if c ≠ "" then " " ++ c else ""
    | none => ""
  normalize (t1 ++ t2 ++ t3 ++ t4)

/-- The aggregated text corpus of `guessToken`:
`[label, name, id, ph].join(" ")`. -/
def corpusOf (el : FormControl) : String :=
  joinSpace [getLabelText el, normalize (optStr el.name),
    normalize el.id, normalize (optStr el.placeholder)]

/-- The text-heuristic part of `guessToken`, applied to the aggregated
corpus: the ordered rule chain from the source, first match wins, with the
known-non-target checks at the very end. -/
def guessTokenText (all : String) : Option String :=
  if hasWord all "email" || hasWord all "e mail" then some "email"
  else if hasWord all "phone" || hasWord all "tel" || hasWord all "mobile"
      || hasWord all "cell" then some "tel"
  else if hasWord all "first" && hasWord all "name" then some "given-name"
  else if hasWord all "last" && hasWord all "name" then some "family-name"
  else if hasWord all "middle" && hasWord all "name" then some "additional-name"
  else if hasWord all "name" then some "name"
  else if hasWord all "company" || hasWord all "organization"
      || hasWord all "organisation" || hasWord all "business" then some "organization"
  else if (hasWord all "address" && (hasWord all "line" || reAddress1 all))
      || reAddrOpt1 all then some "address-line1"
  else if (hasWord all "address" && hasWord all "2") || reAddrOpt2 all then
    some "address-line2"
  else if hasWord all "street" || (hasWord all "address" && !reLine all) then
    some "street-address"
  else if hasWord all "city" || hasWord all "town" || hasWord all "locality" then
    some "address-level2"
  else if hasWord all "state" || hasWord all "province" || hasWord all "region" then
    some "address-level1"
  else if hasWord all "zip" || hasWord all "postal" then some "postal-code"
  else if hasWord all "country" then some "country-name"
  else if hasWord all "website" || hasWord all "url" then some "url"
  else if hasWord all "message" || hasWord all "comments" || hasWord all "notes" then
    none
  else if hasWord all "date" || hasWord all "time" then none
  else none

/-- `guessToken(el)` from the source: strong type signals first, then the
text heuristics over the aggregated corpus. -/
def guessToken (el : FormControl) : Option String :=
  if toLowerS el.type = "email" then some "email"
  else if toLowerS el.type = "tel" then some "tel"
  else if toLowerS el.type = "url" then some "url"
  else guessTokenText (corpusOf el)

/-- The per-control result record `{updated, cleaned, skipped}` returned by
`applyEnhancements`. -/
structure ScanResult where
  updated : Nat
  cleaned : Nat
  skipped : Nat
deriving DecidableEq

/-- The data-cleanup step of `applyEnhancements`: if the attribute is the
literal `"false"`, remove it and count one cleaning. -/
def cleanFalse (el : FormControl) : FormControl × Nat :=
  if el.autocomplete = some "false" then ({ el with autocomplete := none }, 1)
  else (el, 0)

/-- The token-application block of `applyEnhancements` (run when `guessToken`
produced a token): write the autocomplete attribute when it differs, upgrade
the input type for email/tel (the source wraps the property assignment in
try/catch; on the input elements in scope the assignment succeeds), and set
the inputmode and autocapitalize hints. -/
def setTokenAttrs (beforeType tok : String) (el : FormControl) : FormControl × Nat :=
  let a := if el.autocomplete ≠ some tok then
      ({ el with autocomplete := some tok }, 1)
    else (el, 0)
  let b := if tok = "email" ∧ beforeType ≠ "email" then
      ({ a.1 with type := "email" }, a.2 + 1)
    else a
  let c := if tok = "tel" ∧ beforeType ≠ "tel" then
      ({ b.1 with type := "tel" }, b.2 + 1)
    else b
  let d := if tok = "tel" then ({ c.1 with inputmode := some "tel" }, c.2) else c
  let e := if tok = "postal-code" then ({ d.1 with inputmode := some "text" }, d.2) else d
  if tok = "email" ∨ tok = "url" ∨ tok = "username" then
    ({ e.1 with autocapitalize := some "none" }, e.2)
  else e

/-- The final normalization step of `applyEnhancements`: rewrite the
non-standard `tel-national` value to `tel`, counting one update. -/
def normalizeTelNational (el : FormControl) (updated : Nat) : FormControl × Nat :=
  if el.autocomplete = some "tel-national" then
    ({ el with autocomplete := some "tel" }, updated + 1)
  else (el, updated)

/-- `applyEnhancements(el)` from the source, as a transformer of the
control's attribute state.  The `fix_labelIssues()` call made by the source
before classification repairs label markup elsewhere in the document; its
effect is captured by the control's label-text fields, which hold the text
visible at classification time. -/
def applyEnhancements (el0 : FormControl) : FormControl × ScanResult :=
  if el0.autocompleteFixed = some "1" then (el0, ⟨0, 0, 1⟩)
  else
    let beforeType := toLowerS el0.type
    let c := cleanFalse el0
    let s := match guessToken c.1 with
      | some tok => setTokenAttrs beforeType tok c.1
      | none => (c.1, 0)
    let n := normalizeTelNational s.1 s.2
    ({ n.1 with autocompleteFixed := some "1" }, ⟨n.2, c.2, 0⟩)

/-- The totals record returned by `scanOnce`: summed per-control counts plus
the number of form controls present. -/
structure ScanTotals where
  updated : Nat
  cleaned : Nat
  skipped : Nat
  controlCount : Nat
deriving DecidableEq

/-- `RETRY_SCHEDULE_MS` from the source: the fixed backoff delays. -/
def RETRY_SCHEDULE_MS : List Nat := [150, 400, 900, 1800]

/-- The `next()` loop of `scanWithRetries`, reported as the list of delays it
schedules.  `scan a` is the totals of the `(a+1)`-th call of `scanOnce`; at
each schedule position the loop inspects the most recent scan and stops when
it touched something, when controls were present, or when the schedule is
exhausted; otherwise it consumes the next delay and a timer performs one
more scan before the loop resumes. -/
def retriesFrom (scan : Nat → ScanTotals) : List Nat → Nat → List Nat
  | [], _ => []
  | d :: rest, a =>
    if (scan a).updated > 0 ∨ (scan a).cleaned > 0 ∨ (scan a).controlCount > 0 then []
    else d :: retriesFrom scan rest (a + 1)

/-- `scanWithRetries()` from the source: perform the initial scan, then run
the retry loop over `RETRY_SCHEDULE_MS`; the result is the list of scheduled
retry delays in order. -/
def scanWithRetries (scan : Nat → ScanTotals) : List Nat :=
  retriesFrom scan RETRY_SCHEDULE_MS 0

/-- `createTraceDataAttr(_object, _fixText)` from the source, as a function
of the current attribute value (`existing`, null when absent) and the
timestamp; returns the new `data-wcag-fix` value that `setAttribute`
writes.  When the existing value already includes the fix text, the whole
attribute is replaced by the fresh single entry. -/
def createTraceDataAttr (timestamp fixText : String) (existing : Option String) : String :=
  let newValue := if strIncludes fixText "@" then fixText
    else fixText ++ " @ " ++ timestamp
  match existing with
  | none => newValue
  | some ex =>
    if ex ≠ "" ∧ !strIncludes ex fixText then ex ++ " | " ++ newValue
    else newValue

/-- `appendDataTraceAttr(el, text)` from the utils module, as a function of
the current `data-trace` value; returns the value written back. -/
def appendDataTraceAttr (text : String) (prev : Option String) : String :=
  match prev with
  | some p => if p ≠ "" then p ++ " | " ++ text else text
  | none => text

/-- A desktop folder trigger as `fix_desktopFolders` sees one element: the
attributes the routine reads and writes. -/
structure FolderEl where
  /-- `dataset.accessibilityInit`, the idempotency marker. -/
  accessibilityInit : Option String
  tagName : String
  /-- Whether the element has an `href` attribute. -/
  hasHref : Bool
  ariaExpanded : Option String
  role : Option String
  tabindex : Option String
  dataWcagFix : Option String
deriving DecidableEq

/-- The per-element body of `fix_desktopFolders` (FIX-1): marker-guarded
attribute setup plus a trace entry.  Event-listener registration has no
attribute effect and is guarded by the same marker. -/
def fix_desktopFolders (timestamp : String) (f : FolderEl) : FolderEl :=
  if f.accessibilityInit = some "true" then f
  else
    let f1 := { f with accessibilityInit := some "true" }
    let isAnchor := f1.tagName = "A" ∧ f1.hasHref
    let f2 := { f1 with ariaExpanded := some "false" }
    let f3 := if isAnchor then f2
      else { f2 with role := some "button", tabindex := some "0" }
    { f3 with dataWcagFix := some (createTraceDataAttr timestamp
        "FIX-1 - Desktop Dropdown / Folder Menus applied" f3.dataWcagFix) }

/-- A link as `fix_linkPurposeEnhancer` sees one element. -/
structure LinkEl where
  /-- `dataset.linkPurposeInit`, the idempotency marker. -/
  linkPurposeInit : Option String
  textContent : String
  classes : List String
  ariaLabel : Option String
  ariaLabelledby : Option String
  href : Option String
  /-- Text of the heading found in the closest container, when one exists. -/
  headingText : Option String
  dataWcagFix : Option String
deriving DecidableEq

/-- The vague link phrases of FIX-8. -/
def vaguePhrases : List String :=
  ["read more", "learn more", "click here", "details", "view all"]

/-- The per-element body of `fix_linkPurposeEnhancer` (FIX-8): marker-guarded
aria-label derivation from heading or href context. -/
def fix_linkPurposeEnhancer (timestamp : String) (l : LinkEl) : LinkEl :=
  if l.linkPurposeInit = some "true" then l
  else
    let l1 := { l with linkPurposeInit := some "true" }
    let rawText := toLowerS (jsTrim l1.textContent)
    let isVague := vaguePhrases.any (fun p => strStartsWith rawText p)
    let isSummary := l1.classes.contains "summary-read-more-link"
    if !isVague ∧ !isSummary then l1
    else if l1.ariaLabel ≠ none ∨ l1.ariaLabelledby ≠ none then l1
    else
      let context := match l1.headingText with
        | some h => jsTrim h
        | none =>
          let href := optStr l1.href
          if href ≠ "" ∧ href ≠ "#" then
            jsTrim ⟨href.data.map (fun ch =>
              if ch = '/' then ' ' else if ch = '-' then ' ' else ch)⟩
          else ""
      if context ≠ "" then
        let l2 := { l1 with
          ariaLabel := some (jsTrim l1.textContent ++ " about " ++ context) }
        { l2 with dataWcagFix := some (createTraceDataAttr timestamp
            "FIX-8 - Link Purpose Enhancement applied" l2.dataWcagFix) }
      else l1

/-- The catch-and-continue fix runner: the loop of `initAccessibleNav`
(part_000) and `_runAll` (part_003).  Each fix is a named state transformer
that may fail; a failure is caught, the fix's name is logged, and the
remaining fixes run on the unchanged state.  Returns the final state and the
list of names of the fixes whose exceptions were caught, in order. -/
def runAllFixes {St : Type} : List (String × (St → Except String St)) → St → St × List String
  | [], st => (st, [])
  | (n, f) :: rest, st =>
    match f st with
    | Except.ok st2 => runAllFixes rest st2
    | Except.error _ =>
      ((runAllFixes rest st).1, n :: (runAllFixes rest st).2)

/-- A mobile hamburger toggle as `fix_mobileHamburger` (FIX-2) sees it,
together with the window-level resize-listener flag the routine sets.  The
routine returns early when no toggles exist. -/
structure HamburgerState where
  /-- Whether any toggle matched the selector list. -/
  hasToggles : Bool
  /-- `window._wcagHamburgerResizeBound`. -/
  resizeBound : Bool
  /-- `dataset.accessibilityInit`, the idempotency marker. -/
  accessibilityInit : Option String
  role : Option String
  tabindex : Option String
  dataWcagFix : Option String
deriving DecidableEq

/-- The body of `fix_mobileHamburger` on one toggle: early return without
toggles, the once-only resize-listener binding (a window flag; the listener
itself is not DOM state), then the marker-guarded role/tabindex setup and
trace entry.  Keyboard-listener registration has no attribute effect. -/
def fix_mobileHamburger (timestamp : String) (st : HamburgerState) : HamburgerState :=
  if !st.hasToggles then st
  else
    let st1 := { st with resizeBound := true }
    if st1.accessibilityInit = some "true" then st1
    else
      { st1 with
        accessibilityInit := some "true",
        role := some "button",
        tabindex := some "0",
        dataWcagFix := some (createTraceDataAttr timestamp
          "FIX-2 - Mobile Hamburger Menu applied" st1.dataWcagFix) }

/-- The invocation-time DOM effect of `fix_focusOutlineSimple` (FIX-3): the
routine is guarded by `documentElement.dataset.accFocusSimpleBound` and on
its first run only sets that flag and registers focus/blur listeners; all
outline styling happens later inside those handlers, so the flag is the
whole DOM state the invocation touches. -/
def fix_focusOutlineSimple (accFocusSimpleBound : Option String) : Option String :=
  if accFocusSimpleBound = some "true" then accFocusSimpleBound else some "true"

/-- The document state `fix_targetSizeMinimum` (FIX-4) touches: whether the
style element with id `acc-target-size-css` exists, and its trace. -/
structure TargetSizeState where
  hasTargetSizeStyle : Bool
  styleTrace : Option String
deriving DecidableEq

/-- `fix_targetSizeMinimum`: guarded by the style-element id; the first run
injects the style sheet and records a trace entry on the fresh element. -/
def fix_targetSizeMinimum (timestamp : String) (st : TargetSizeState) : TargetSizeState :=
  if st.hasTargetSizeStyle then st
  else
    { hasTargetSizeStyle := true,
      styleTrace := some (createTraceDataAttr timestamp
        "FIX-4 - Minimum Target Size applied" none) }

/-- `if (!targetEl.id) targetEl.id = "main-content"` followed by reading the
id back: the resolved skip-link target id. -/
def tidOf (currentId : String) : String :=
  if currentId = "" then "main-content" else currentId

/-- The page state `fix_skipToMain` (FIX-5, part_000 registry version)
reads and writes: the skip link and its style, and the candidate targets in
the source's priority order (`main`, `[role=main]`, `h1`) with their id
attributes (empty string when absent, as the `id` property reports). -/
structure SkipPage where
  skipLinkExists : Bool
  skipLinkHref : Option String
  skipLinkTrace : Option String
  skipStyleExists : Bool
  hasMain : Bool
  mainId : String
  hasRoleMain : Bool
  roleMainId : String
  hasH1 : Bool
  h1Id : String
deriving DecidableEq

/-- `fix_skipToMain`: create the link and its style once; then on every run
re-resolve the target, give it an id when it lacks one, point the link at
it, and record a trace entry.  With no target the routine warns and returns
after the creation step. -/
def fix_skipToMain (timestamp : String) (p : SkipPage) : SkipPage :=
  let p1 := if p.skipLinkExists then p
    else
      let q := { p with
        skipLinkExists := true,
        skipLinkHref := none,
        skipLinkTrace := none }
      if q.skipStyleExists then q else { q with skipStyleExists := true }
  if p1.hasMain then
    let tid := tidOf p1.mainId
    { p1 with
      mainId := tid,
      skipLinkHref := some ("#" ++ tid),
      skipLinkTrace := some (createTraceDataAttr timestamp
        "FIX-5 - Skip to Main Content applied" p1.skipLinkTrace) }
  else if p1.hasRoleMain then
    let tid := tidOf p1.roleMainId
    { p1 with
      roleMainId := tid,
      skipLinkHref := some ("#" ++ tid),
      skipLinkTrace := some (createTraceDataAttr timestamp
        "FIX-5 - Skip to Main Content applied" p1.skipLinkTrace) }
  else if p1.hasH1 then
    let tid := tidOf p1.h1Id
    { p1 with
      h1Id := tid,
      skipLinkHref := some ("#" ++ tid),
      skipLinkTrace := some (createTraceDataAttr timestamp
        "FIX-5 - Skip to Main Content applied" p1.skipLinkTrace) }
  else p1

/-- Erase the skip-link trace attribute: `fix_skipToMain` re-records its
trace on every successful run, which the idempotence claim exempts. -/
def eraseSkipTrace (p : SkipPage) : SkipPage :=
  { p with skipLinkTrace := none }

/-- The invocation-time DOM effect of `fix_focusOrderHelpers` (FIX-7): the
routine only registers a document click handler and a `mercury:load`
handler; every attribute write (tabindex, focus) happens later inside those
handlers, so invoking the routine mutates no DOM state at all. -/
def fix_focusOrderHelpers {Dom : Type} (d : Dom) : Dom := d

/-- A phone or email link as `fix_contactLinkContext` (FIX-9) sees it. -/
structure ContactLinkEl where
  /-- `dataset.contactLabelInit`, the idempotency marker. -/
  contactLabelInit : Option String
  ariaLabel : Option String
  href : Option String
  textContent : String
  /-- Text of the heading in the closest container, when one exists. -/
  headingText : Option String
  dataWcagFix : Option String
deriving DecidableEq

/-- The per-element body of `fix_contactLinkContext`: marker-guarded
aria-label derivation for `tel:` and `mailto:` links from heading context. -/
def fix_contactLinkContext (timestamp : String) (l : ContactLinkEl) : ContactLinkEl :=
  if l.contactLabelInit = some "true" then l
  else
    let l1 := { l with contactLabelInit := some "true" }
    if l1.ariaLabel ≠ none then l1
    else
      let href := optStr l1.href
      let isPhone := strStartsWith href "tel:"
      let isEmail := strStartsWith href "mailto:"
      let visibleText := jsTrim l1.textContent
      let context := match l1.headingText with
        | some h => jsTrim h
        | none => ""
      let label := if isPhone then
          (if context ≠ "" then "Call about " ++ context ++ " at " ++ visibleText
           else "Call " ++ visibleText)
        else if isEmail then
          (if context ≠ "" then "Email about " ++ context ++ " to " ++ visibleText
           else "Email " ++ visibleText)
        else ""
      let l2 := if label ≠ "" then { l1 with ariaLabel := some label } else l1
      { l2 with dataWcagFix := some (createTraceDataAttr timestamp
          "FIX-9 - Contact Link Context Labels applied - phone and email addresses"
          l2.dataWcagFix) }

/-- A PDF link as `fix_pdfLinkEnhancer` (FIX-10) sees it. -/
structure PdfLinkEl where
  /-- `dataset.pdfEnhanceInit`, the idempotency marker. -/
  pdfEnhanceInit : Option String
  ariaLabel : Option String
  innerText : String
  /-- Whether the appended `(PDF)` span child is present. -/
  hasPdfSpan : Bool
  /-- `link.target === "_blank"`. -/
  opensNewTab : Bool
  dataWcagFix : Option String
deriving DecidableEq

/-- The per-element body of `fix_pdfLinkEnhancer`: marker-guarded span
append (which extends the visible text) and aria-label derivation. -/
def fix_pdfLinkEnhancer (timestamp : String) (l : PdfLinkEl) : PdfLinkEl :=
  if l.pdfEnhanceInit = some "true" then l
  else
    let l1 := { l with pdfEnhanceInit := some "true" }
    if l1.ariaLabel ≠ none then l1
    else
      let text := jsTrim l1.innerText
      let hasVisibleText := text ≠ ""
      let l2 := if hasVisibleText then
          (if !strIncludes (toLowerS text) "(pdf)" then
            { l1 with
              hasPdfSpan := true,
              innerText := l1.innerText ++ " (PDF)" }
          else l1)
        else l1
      let label := if hasVisibleText then
          "Download " ++ text ++ ", PDF file" ++
            (if l1.opensNewTab then ", opens in a new tab." else "")
        else
          "Download PDF file" ++
            (if l1.opensNewTab then ", opens in a new tab." else "")
      let l3 := { l2 with ariaLabel := some label }
      { l3 with dataWcagFix := some (createTraceDataAttr timestamp
          "FIX-10 - PDF Link Context Enhancement applied" l3.dataWcagFix) }

/-- A button as `fix_emptyButtons` sees it (the function the source also
labels FIX-10). -/
structure ButtonEl where
  textContent : String
  ariaLabel : Option String
  ariaLabelledby : Option String
  /-- `btn.closest('[id*="lightbox"]')` found something. -/
  inLightbox : Bool
  /-- `btn.closest("nav")` found something. -/
  inNav : Bool
  /-- `btn.type === "submit"`. -/
  typeSubmit : Bool
  dataWcagFix : Option String
deriving DecidableEq

/-- The per-element body of `fix_emptyButtons`: a button with neither text
nor label receives a context-derived aria-label; the written label then
guards every later run. -/
def fix_emptyButtons (timestamp : String) (b : ButtonEl) : ButtonEl :=
  let hasText := jsTrim b.textContent ≠ ""
  let hasLabel := b.ariaLabel ≠ none ∨ b.ariaLabelledby ≠ none
  if ¬hasText ∧ ¬hasLabel then
    let label := if b.inLightbox then "Close dialog"
      else if b.inNav then "Toggle menu"
      else if b.typeSubmit then "Submit form"
      else "Button"
    { b with
      ariaLabel := some label,
      dataWcagFix := some (createTraceDataAttr timestamp
        ("FIX-10: Added aria-label=\"" ++ label ++ "\"") b.dataWcagFix) }
  else b

/-- The document state `fix_formStatusAnnouncer` (FIX-11) touches: the live
region, the shared `sr-only` style (created only together with the live
region), the window observer flag, and the trace on `document.body`. -/
structure AnnouncerState where
  announcerExists : Bool
  srStyleExists : Bool
  /-- `window._accFormAnnounceObserverAttached`. -/
  observerAttached : Bool
  bodyTrace : Option String
deriving DecidableEq

/-- `fix_formStatusAnnouncer`: create the live region (and style) once;
then return before observing and tracing when the observer flag is already
set.  The announcements themselves happen later inside the observer. -/
def fix_formStatusAnnouncer (timestamp : String) (st : AnnouncerState) : AnnouncerState :=
  let st1 := if st.announcerExists then st
    else
      let q := { st with announcerExists := true }
      if q.srStyleExists then q else { q with srStyleExists := true }
  if st1.observerAttached then st1
  else
    { st1 with
      observerAttached := true,
      bodyTrace := some (createTraceDataAttr timestamp
        "FIX-11 - Form Status Message Announcer applied" st1.bodyTrace) }

/-- A non-user-focusable element as step 0 of `fix_labelIssues` (FIX-6B)
sees it. -/
structure HiddenEl where
  ariaHidden : Option String
  tabindex : Option String
  dataWcagFix : Option String
deriving DecidableEq

/-- Step 0 of `fix_labelIssues`: unconditionally set `aria-hidden="true"`
and `tabindex="-1"` and record a trace entry (re-recorded on every run). -/
def fix_labelIssues_hidden (timestamp : String) (e : HiddenEl) : HiddenEl :=
  { ariaHidden := some "true", tabindex := some "-1",
    dataWcagFix := some (createTraceDataAttr timestamp
      "FIX-6B - Hidden non-interactive element" e.dataWcagFix) }

/-- Erase the trace of a hidden element, which step 0 re-records every run. -/
def eraseHiddenTrace (e : HiddenEl) : HiddenEl :=
  { e with dataWcagFix := none }

/-- A fieldset with its legend and label as step 1 of `fix_labelIssues`
sees it (`none` = the element is missing, in which case the step returns). -/
structure FieldsetEl where
  legendText : Option String
  labelText : Option String
  labelSrOnly : Bool
  srStyleExists : Bool
  labelTrace : Option String
deriving DecidableEq

/-- Step 1 of `fix_labelIssues`: when the legend has text and the label is
empty, copy the trimmed legend text into the label, visually hide it, make
sure the `sr-only` style exists, and record a trace entry. -/
def fix_labelIssues_fill (timestamp : String) (f : FieldsetEl) : FieldsetEl :=
  match f.legendText, f.labelText with
  | some lg, some lb =>
    let legendText := jsTrim lg
    let labelText := jsTrim lb
    if legendText ≠ "" ∧ labelText = "" then
      { f with
        labelText := some legendText,
        labelSrOnly := true,
        srStyleExists := true,
        labelTrace := some (createTraceDataAttr timestamp
          "FIX-6B - Empty label filled from legend" f.labelTrace) }
    else f
  | _, _ => f

/-- A `label[for]` element as step 2 of `fix_labelIssues` sees it.
`targetExists` records whether `getElementById` resolves the current `for`
value; the candidate is the first control inside the closest fieldset, an
element of the document, so a `for` attribute rewritten to its id
resolves. -/
structure LabelForEl where
  forAttr : String
  targetExists : Bool
  candidateId : Option String
  labelTrace : Option String
deriving DecidableEq

/-- Step 2 of `fix_labelIssues`: when the `for` target is missing and the
closest fieldset holds a control with a (truthy) id, rebind the label to
that control; the rewritten attribute then resolves on later runs. -/
def fix_labelIssues_rebind (timestamp : String) (st : LabelForEl) : LabelForEl :=
  if st.targetExists then st
  else
    match st.candidateId with
    | some cid =>
      if cid ≠ "" then
        { st with
          forAttr := cid,
          targetExists := true,
          labelTrace := some (createTraceDataAttr timestamp
            "FIX-6B - Label for repaired" st.labelTrace) }
      else st
    | none => st

/-- A reCAPTCHA response textarea as step 4 of `fix_labelIssues` sees it. -/
structure RecaptchaEl where
  ariaHidden : Option String
  ariaLabel : Option String
  hiddenAttr : Option String
deriving DecidableEq

/-- Step 4 of `fix_labelIssues`: unconditionally hide the reCAPTCHA
textarea from assistive technology. -/
def fix_labelIssues_recaptcha (_e : RecaptchaEl) : RecaptchaEl :=
  { ariaHidden := some "true",
    ariaLabel := some "Security field, do not fill", hiddenAttr := some "" }

/-! ### Helper lemmas -/

/-- The retry loop never schedules more retries than the schedule has
entries. -/
theorem retriesFrom_length_le (scan : Nat → ScanTotals) :
    ∀ (sched : List Nat) (a : Nat), (retriesFrom scan sched a).length ≤ sched.length := by
  intro sched
  induction sched with
  | nil => intro a; simp [retriesFrom]
  | cons d rest ih =>
    intro a
    simp only [retriesFrom]
    split
    · simp
    · simpa using ih (a + 1)

/-- A strong type signal short-circuits `guessToken`. -/
theorem guessToken_strong_type (el : FormControl) :
    (toLowerS el.type = "email" → guessToken el = some "email") ∧
    (toLowerS el.type = "tel" → guessToken el = some "tel") ∧
    (toLowerS el.type = "url" → guessToken el = some "url") := by
  refine ⟨fun h => ?_, fun h => ?_, fun h => ?_⟩ <;>
    (unfold guessToken; rw [h]; rfl)

/-- The text-rule chain never produces the literal string `"false"`. -/
theorem guessTokenText_ne_false (s : String) : guessTokenText s ≠ some "false" := by
  unfold guessTokenText
  intro h
  by_cases h1 : (hasWord s "email" || hasWord s "e mail") = true
  · rw [if_pos h1] at h; exact absurd h (by decide)
  rw [if_neg h1] at h
  by_cases h2 : (hasWord s "phone" || hasWord s "tel" || hasWord s "mobile" || hasWord s "cell") = true
  · rw [if_pos h2] at h; exact absurd h (by decide)
  rw [if_neg h2] at h
  by_cases h3 : (hasWord s "first" && hasWord s "name") = true
  · rw [if_pos h3] at h; exact absurd h (by decide)
  rw [if_neg h3] at h
  by_cases h4 : (hasWord s "last" && hasWord s "name") = true
  · rw [if_pos h4] at h; exact absurd h (by decide)
  rw [if_neg h4] at h
  by_cases h5 : (hasWord s "middle" && hasWord s "name") = true
  · rw [if_pos h5] at h; exact absurd h (by decide)
  rw [if_neg h5] at h
  by_cases h6 : (hasWord s "name") = true
  · rw [if_pos h6] at h; exact absurd h (by decide)
  rw [if_neg h6] at h
  by_cases h7 : (hasWord s "company" || hasWord s "organization" || hasWord s "organisation" || hasWord s "business") = true
  · rw [if_pos h7] at h; exact absurd h (by decide)
  rw [if_neg h7] at h
  by_cases h8 : ((hasWord s "address" && (hasWord s "line" || reAddress1 s)) || reAddrOpt1 s) = true
  · rw [if_pos h8] at h; exact absurd h (by decide)
  rw [if_neg h8] at h
  by_cases h9 : ((hasWord s "address" && hasWord s "2") || reAddrOpt2 s) = true
  · rw [if_pos h9] at h; exact absurd h (by decide)
  rw [if_neg h9] at h
  by_cases h10 : (hasWord s "street" || (hasWord s "address" && !reLine s)) = true
  · rw [if_pos h10] at h; exact absurd h (by decide)
  rw [if_neg h10] at h
  by_cases h11 : (hasWord s "city" || hasWord s "town" || hasWord s "locality") = true
  · rw [if_pos h11] at h; exact absurd h (by decide)
  rw [if_neg h11] at h
  by_cases h12 : (hasWord s "state" || hasWord s "province" || hasWord s "region") = true
  · rw [if_pos h12] at h; exact absurd h (by decide)
  rw [if_neg h12] at h
  by_cases h13 : (hasWord s "zip" || hasWord s "postal") = true
  · rw [if_pos h13] at h; exact absurd h (by decide)
  rw [if_neg h13] at h
  by_cases h14 : (hasWord s "country") = true
  · rw [if_pos h14] at h; exact absurd h (by decide)
  rw [if_neg h14] at h
  by_cases h15 : (hasWord s "website" || hasWord s "url") = true
  · rw [if_pos h15] at h; exact absurd h (by decide)
  rw [if_neg h15] at h
  by_cases h16 : (hasWord s "message" || hasWord s "comments" || hasWord s "notes") = true
  · rw [if_pos h16] at h; exact absurd h (by decide)
  rw [if_neg h16] at h
  by_cases h17 : (hasWord s "date" || hasWord s "time") = true
  · rw [if_pos h17] at h; exact absurd h (by decide)
  rw [if_neg h17] at h
  exact absurd h (by decide)

/-- `guessToken` never produces the literal string `"false"` as a token. -/
theorem guessToken_ne_false (el : FormControl) : guessToken el ≠ some "false" := by
  unfold guessToken
  intro h
  by_cases t1 : toLowerS el.type = "email"
  · rw [if_pos t1] at h; exact absurd h (by decide)
  rw [if_neg t1] at h
  by_cases t2 : toLowerS el.type = "tel"
  · rw [if_pos t2] at h; exact absurd h (by decide)
  rw [if_neg t2] at h
  by_cases t3 : toLowerS el.type = "url"
  · rw [if_pos t3] at h; exact absurd h (by decide)
  rw [if_neg t3] at h
  exact absurd h (guessTokenText_ne_false (corpusOf el))

/-- After the token-application block, the autocomplete attribute holds the
token. -/
theorem setTokenAttrs_autocomplete (bt tok : String) (el : FormControl) :
    (setTokenAttrs bt tok el).1.autocomplete = some tok := by
  simp only [setTokenAttrs]
  split_ifs <;> simp_all

/-- For the `tel` token the token-application block sets `inputmode="tel"`. -/
theorem setTokenAttrs_tel_inputmode (bt : String) (el : FormControl) :
    (setTokenAttrs bt "tel" el).1.inputmode = some "tel" := by
  simp only [setTokenAttrs]
  split_ifs <;> simp_all

/-- `applyEnhancements` always leaves the HAS_RUN_MARK marker set. -/
theorem applyEnhancements_marks (el : FormControl) :
    (applyEnhancements el).1.autocompleteFixed = some "1" := by
  unfold applyEnhancements
  split
  · next h => exact h
  · rfl

/-- On a marked control `applyEnhancements` skips: it changes nothing and
reports one skip. -/
theorem applyEnhancements_skip (el : FormControl) (h : el.autocompleteFixed = some "1") :
    applyEnhancements el = (el, ⟨0, 0, 1⟩) := by
  unfold applyEnhancements
  rw [if_pos h]

/-- `fix_desktopFolders` always leaves the per-element marker set. -/
theorem fix_desktopFolders_init (ts : String) (f : FolderEl) :
    (fix_desktopFolders ts f).accessibilityInit = some "true" := by
  simp only [fix_desktopFolders]
  split_ifs <;> simp_all

/-- `fix_desktopFolders` skips a marked element. -/
theorem fix_desktopFolders_skip (ts : String) (f : FolderEl)
    (h : f.accessibilityInit = some "true") : fix_desktopFolders ts f = f := by
  unfold fix_desktopFolders
  rw [if_pos h]

/-- `fix_linkPurposeEnhancer` always leaves the per-element marker set. -/
theorem fix_linkPurposeEnhancer_init (ts : String) (l : LinkEl) :
    (fix_linkPurposeEnhancer ts l).linkPurposeInit = some "true" := by
  simp only [fix_linkPurposeEnhancer]
  split_ifs <;> simp_all

/-- `fix_linkPurposeEnhancer` skips a marked element. -/
theorem fix_linkPurposeEnhancer_skip (ts : String) (l : LinkEl)
    (h : l.linkPurposeInit = some "true") : fix_linkPurposeEnhancer ts l = l := by
  unfold fix_linkPurposeEnhancer
  rw [if_pos h]

/-- `dropWhile` is idempotent. -/
theorem dropWhile_dropWhile (p : Char → Bool) (l : List Char) :
    List.dropWhile p (List.dropWhile p l) = List.dropWhile p l := by
  induction l with
  | nil => rfl
  | cons c t ih =>
    by_cases h : p c = true
    · rw [List.dropWhile_cons_of_pos h]
      exact ih
    · rw [List.dropWhile_cons_of_neg h, List.dropWhile_cons_of_neg h]

/-- The result of `dropWhile` is empty or starts with a failing character. -/
theorem dropWhile_head_false (p : Char → Bool) (l : List Char) :
    List.dropWhile p l = [] ∨
      ∃ c t, List.dropWhile p l = c :: t ∧ p c = false := by
  induction l with
  | nil => left; rfl
  | cons c t ih =>
    by_cases h : p c = true
    · rw [List.dropWhile_cons_of_pos h]
      exact ih
    · right
      exact ⟨c, t, List.dropWhile_cons_of_neg h, by simpa using h⟩

/-- `dropWhile` fixes a list that is empty or starts with a failing
character. -/
theorem dropWhile_eq_self_of_head (p : Char → Bool) (l : List Char)
    (h : l = [] ∨ ∃ c t, l = c :: t ∧ p c = false) :
    List.dropWhile p l = l := by
  rcases h with rfl | ⟨c, t, rfl, hc⟩
  · rfl
  · exact List.dropWhile_cons_of_neg (by simp [hc])

/-- Trimming is idempotent. -/
theorem trimChars_idem (l : List Char) : trimChars (trimChars l) = trimChars l := by
  unfold trimChars
  have h1 : ((((l.dropWhile isJsSpace).reverse.dropWhile
      isJsSpace).reverse).dropWhile isJsSpace) =
      ((l.dropWhile isJsSpace).reverse.dropWhile isJsSpace).reverse := by
    apply dropWhile_eq_self_of_head
    rcases hR : (l.dropWhile isJsSpace).reverse.dropWhile isJsSpace with _ | ⟨c0, t0⟩
    · left; rfl
    · rcases hRrev : (c0 :: t0).reverse with _ | ⟨c, t2⟩
      · exact absurd hRrev (by simp)
      · right
        refine ⟨c, t2, rfl, ?_⟩
        have hSdecomp : l.dropWhile isJsSpace =
            (c :: t2) ++ ((l.dropWhile isJsSpace).reverse.takeWhile isJsSpace).reverse := by
          calc l.dropWhile isJsSpace
              = (l.dropWhile isJsSpace).reverse.reverse := by
                rw [List.reverse_reverse]
            _ = ((l.dropWhile isJsSpace).reverse.takeWhile isJsSpace ++
                  (l.dropWhile isJsSpace).reverse.dropWhile isJsSpace).reverse := by
                rw [List.takeWhile_append_dropWhile]
            _ = (c :: t2) ++
                  ((l.dropWhile isJsSpace).reverse.takeWhile isJsSpace).reverse := by
                rw [List.reverse_append, hR, hRrev]
        rcases dropWhile_head_false isJsSpace l with h0 | ⟨c1, t1, hc1t, hc1⟩
        · rw [h0] at hSdecomp
          exact absurd hSdecomp.symm (by simp)
        · rw [hc1t] at hSdecomp
          have : c1 = c := by
            have := hSdecomp
            simpa using congrArg (fun x => x.head?) this
          rw [← this]
          exact hc1
  rw [h1]
  congr 1
  rw [List.reverse_reverse]
  exact dropWhile_dropWhile isJsSpace _

/-- `jsTrim` is idempotent. -/
theorem jsTrim_idem (s : String) : jsTrim (jsTrim s) = jsTrim s := by
  simp [jsTrim, trimChars_idem]

/-- The resolved skip-link target id stabilizes after one resolution. -/
theorem tidOf_idem (s : String) : tidOf (tidOf s) = tidOf s := by
  unfold tidOf
  by_cases h : s = "" <;> simp [h]

/-- `fix_mobileHamburger` is idempotent. -/
theorem fix_mobileHamburger_idem (ts1 ts2 : String) (st : HamburgerState) :
    fix_mobileHamburger ts2 (fix_mobileHamburger ts1 st) = fix_mobileHamburger ts1 st := by
  unfold fix_mobileHamburger
  by_cases ht : st.hasToggles
  · by_cases hm : st.accessibilityInit = some "true" <;> simp [ht, hm]
  · simp [ht]

/-- `fix_focusOutlineSimple` is idempotent. -/
theorem fix_focusOutlineSimple_idem (d : Option String) :
    fix_focusOutlineSimple (fix_focusOutlineSimple d) = fix_focusOutlineSimple d := by
  unfold fix_focusOutlineSimple
  by_cases h : d = some "true" <;> simp [h]

/-- `fix_targetSizeMinimum` is idempotent. -/
theorem fix_targetSizeMinimum_idem (ts1 ts2 : String) (st : TargetSizeState) :
    fix_targetSizeMinimum ts2 (fix_targetSizeMinimum ts1 st) =
      fix_targetSizeMinimum ts1 st := by
  unfold fix_targetSizeMinimum
  by_cases h : st.hasTargetSizeStyle <;> simp [h]

/-- `fix_skipToMain` is idempotent up to its trace entry, which it
re-records on every successful run. -/
theorem fix_skipToMain_idem (ts1 ts2 : String) (p : SkipPage) :
    eraseSkipTrace (fix_skipToMain ts2 (fix_skipToMain ts1 p)) =
      eraseSkipTrace (fix_skipToMain ts1 p) := by
  unfold fix_skipToMain eraseSkipTrace
  by_cases hex : p.skipLinkExists <;>
    by_cases hst : p.skipStyleExists <;>
      by_cases hm : p.hasMain <;>
        by_cases hr : p.hasRoleMain <;>
          by_cases hh : p.hasH1 <;>
            simp [hex, hst, hm, hr, hh, tidOf_idem]

/-- `fix_contactLinkContext` always leaves the per-element marker set. -/
theorem fix_contactLinkContext_init (ts : String) (l : ContactLinkEl) :
    (fix_contactLinkContext ts l).contactLabelInit = some "true" := by
  simp only [fix_contactLinkContext]
  split_ifs <;> simp_all

/-- `fix_contactLinkContext` skips a marked element. -/
theorem fix_contactLinkContext_skip (ts : String) (l : ContactLinkEl)
    (h : l.contactLabelInit = some "true") : fix_contactLinkContext ts l = l := by
  unfold fix_contactLinkContext
  rw [if_pos h]

/-- `fix_pdfLinkEnhancer` always leaves the per-element marker set. -/
theorem fix_pdfLinkEnhancer_init (ts : String) (l : PdfLinkEl) :
    (fix_pdfLinkEnhancer ts l).pdfEnhanceInit = some "true" := by
  simp only [fix_pdfLinkEnhancer]
  split_ifs <;> simp_all

/-- `fix_pdfLinkEnhancer` skips a marked element. -/
theorem fix_pdfLinkEnhancer_skip (ts : String) (l : PdfLinkEl)
    (h : l.pdfEnhanceInit = some "true") : fix_pdfLinkEnhancer ts l = l := by
  unfold fix_pdfLinkEnhancer
  rw [if_pos h]

/-- A button either receives an aria-label (and keeps it) or is left
untouched by every run of `fix_emptyButtons`. -/
theorem fix_emptyButtons_cases (b : ButtonEl) :
    (∀ ts, (fix_emptyButtons ts b).ariaLabel ≠ none) ∨
      (∀ ts, fix_emptyButtons ts b = b) := by
  by_cases h : ¬jsTrim b.textContent ≠ "" ∧
      ¬(b.ariaLabel ≠ none ∨ b.ariaLabelledby ≠ none)
  · left
    intro ts
    unfold fix_emptyButtons
    dsimp only
    rw [if_pos h]
    simp
  · right
    intro ts
    unfold fix_emptyButtons
    dsimp only
    rw [if_neg h]

/-- `fix_emptyButtons` skips a button that carries an aria-label. -/
theorem fix_emptyButtons_skip (ts : String) (b : ButtonEl)
    (h : b.ariaLabel ≠ none) : fix_emptyButtons ts b = b := by
  unfold fix_emptyButtons
  dsimp only
  rw [if_neg (fun hc => hc.2 (Or.inl h))]

/-- `fix_emptyButtons` is idempotent. -/
theorem fix_emptyButtons_idem (ts1 ts2 : String) (b : ButtonEl) :
    fix_emptyButtons ts2 (fix_emptyButtons ts1 b) = fix_emptyButtons ts1 b := by
  rcases fix_emptyButtons_cases b with h | h
  · exact fix_emptyButtons_skip ts2 _ (h ts1)
  · rw [h ts1, h ts2]

/-- `fix_formStatusAnnouncer` is idempotent. -/
theorem fix_formStatusAnnouncer_idem (ts1 ts2 : String) (st : AnnouncerState) :
    fix_formStatusAnnouncer ts2 (fix_formStatusAnnouncer ts1 st) =
      fix_formStatusAnnouncer ts1 st := by
  unfold fix_formStatusAnnouncer
  by_cases ha : st.announcerExists <;>
    by_cases hs : st.srStyleExists <;>
      by_cases ho : st.observerAttached <;>
        simp [ha, hs, ho]

/-- Step 0 of `fix_labelIssues` is idempotent up to its trace entry, which
it re-records on every run. -/
theorem fix_labelIssues_hidden_idem (ts1 ts2 : String) (e : HiddenEl) :
    eraseHiddenTrace (fix_labelIssues_hidden ts2 (fix_labelIssues_hidden ts1 e)) =
      eraseHiddenTrace (fix_labelIssues_hidden ts1 e) := rfl

/-- Step 1 of `fix_labelIssues` is idempotent: once the label holds the
trimmed legend text it is never empty again. -/
theorem fix_labelIssues_fill_idem (ts1 ts2 : String) (f : FieldsetEl) :
    fix_labelIssues_fill ts2 (fix_labelIssues_fill ts1 f) =
      fix_labelIssues_fill ts1 f := by
  rcases hlg : f.legendText with _ | lg <;>
    rcases hlb : f.labelText with _ | lb
  · simp [fix_labelIssues_fill, hlg, hlb]
  · simp [fix_labelIssues_fill, hlg, hlb]
  · simp [fix_labelIssues_fill, hlg, hlb]
  · by_cases hC : jsTrim lg ≠ "" ∧ jsTrim lb = ""
    · have h1 : fix_labelIssues_fill ts1 f = { f with
          labelText := some (jsTrim lg),
          labelSrOnly := true,
          srStyleExists := true,
          labelTrace := some (createTraceDataAttr ts1
            "FIX-6B - Empty label filled from legend" f.labelTrace) } := by
        simp only [fix_labelIssues_fill, hlg, hlb]
        rw [if_pos hC]
      rw [h1]
      have hni : ¬(jsTrim lg ≠ "" ∧ jsTrim (jsTrim lg) = "") := by
        rw [jsTrim_idem]
        intro hc
        exact hc.1 hc.2
      simp only [fix_labelIssues_fill, hlg]
      rw [if_neg hni]
    · have h1 : fix_labelIssues_fill ts1 f = f := by
        simp only [fix_labelIssues_fill, hlg, hlb]
        rw [if_neg hC]
      rw [h1]
      simp only [fix_labelIssues_fill, hlg, hlb]
      rw [if_neg hC]

/-- Step 2 of `fix_labelIssues` is idempotent: a rebound `for` attribute
resolves, so later runs skip. -/
theorem fix_labelIssues_rebind_idem (ts1 ts2 : String) (st : LabelForEl) :
    fix_labelIssues_rebind ts2 (fix_labelIssues_rebind ts1 st) =
      fix_labelIssues_rebind ts1 st := by
  unfold fix_labelIssues_rebind
  by_cases ht : st.targetExists
  · simp [ht]
  · rcases hc : st.candidateId with _ | cid
    · simp [ht, hc]
    · by_cases hcid : cid ≠ "" <;> simp [ht, hc, hcid]

/-! ### Concrete scenario controls -/

/-- Scenario control for C4: a text input wrapped in a label reading
`First Name`, rendered with `autocomplete="false"` and no other textual
signals, not yet processed. -/
def cFirstName : FormControl :=
  { type := "text", forLabelText := none, wrapLabelText := some "First Name",
    ariaLabelledbyTexts := [], fieldWrapClassName := none, name := none,
    id := "", placeholder := none, autocomplete := some "false",
    inputmode := none, autocapitalize := none, autocompleteFixed := none }

/-- Witness control for C2: `type="email"` with a name containing phone. -/
def cEmailTypePhoneName : FormControl :=
  { type := "email", forLabelText := none, wrapLabelText := none,
    ariaLabelledbyTexts := [], fieldWrapClassName := none,
    name := some "phone", id := "", placeholder := none, autocomplete := none,
    inputmode := none, autocapitalize := none, autocompleteFixed := none }

/-- Witness control for C5: `type="tel"` with `autocomplete="tel-national"`. -/
def cTelNational : FormControl :=
  { type := "tel", forLabelText := none, wrapLabelText := none,
    ariaLabelledbyTexts := [], fieldWrapClassName := none, name := none,
    id := "", placeholder := none, autocomplete := some "tel-national",
    inputmode := none, autocapitalize := none, autocompleteFixed := none }

/-- Witness control for C6: a plain text input named `username` with no
other textual signals. -/
def cUsername : FormControl :=
  { type := "text", forLabelText := none, wrapLabelText := none,
    ariaLabelledbyTexts := [], fieldWrapClassName := none,
    name := some "username", id := "", placeholder := none,
    autocomplete := none, inputmode := none, autocapitalize := none,
    autocompleteFixed := none }

/-- Counterexample control for C3: a plain text input whose name attribute
is `phone notes`, so the normalized corpus contains both the whole word
`phone` (an earlier positive rule) and the whole word `notes` (a negative
override word). -/
def cPhoneNotes : FormControl :=
  { type := "text", forLabelText := none, wrapLabelText := none,
    ariaLabelledbyTexts := [], fieldWrapClassName := none,
    name := some "phone notes", id := "", placeholder := none,
    autocomplete := none, inputmode := none, autocapitalize := none,
    autocompleteFixed := none }

/-- Control for the amended C3: a plain text input wrapped in a label whose
text is `Additional notes about your message`. -/
def cNotesMessage : FormControl :=
  { type := "text", forLabelText := none,
    wrapLabelText := some "Additional notes about your message",
    ariaLabelledbyTexts := [], fieldWrapClassName := none, name := none,
    id := "", placeholder := none, autocomplete := none, inputmode := none,
    autocapitalize := none, autocompleteFixed := none }

/-- Witness control for C10: an already-marked control carrying label text
that appeared after its first processing. -/
def cMarkedLate : FormControl :=
  { type := "text", forLabelText := none,
    wrapLabelText := some "Email Address", ariaLabelledbyTexts := [],
    fieldWrapClassName := none, name := none, id := "", placeholder := none,
    autocomplete := none, inputmode := none, autocapitalize := none,
    autocompleteFixed := some "1" }

/-! ### Claims -/

/-- C1: if every scan pass reports zero updated controls, zero cleaned
controls and zero controls present, the retry scheduler performs the initial
scan and then schedules exactly one follow-up scan per entry of the fixed
delay sequence [150, 400, 900, 1800] ms, consumed left to right, and never
schedules a fifth retry: for any scan outcomes at all, at most four retries
are ever scheduled. -/
theorem claim_C1_retry_termination (scan : Nat → ScanTotals)
    (h : ∀ a, (scan a).updated = 0 ∧ (scan a).cleaned = 0 ∧ (scan a).controlCount = 0) :
    scanWithRetries scan = [150, 400, 900, 1800] ∧
      ∀ g : Nat → ScanTotals, (scanWithRetries g).length ≤ 4 := by
  constructor
  · unfold scanWithRetries RETRY_SCHEDULE_MS
    simp [retriesFrom, (h 0).1, (h 0).2.1, (h 0).2.2, (h 1).1, (h 1).2.1,
      (h 1).2.2, (h 2).1, (h 2).2.1, (h 2).2.2, (h 3).1, (h 3).2.1, (h 3).2.2]
  · intro g
    simpa [scanWithRetries, RETRY_SCHEDULE_MS] using
      retriesFrom_length_le g RETRY_SCHEDULE_MS 0

/-- Witness for C1 at the all-zero scan. -/
theorem claim_C1_retry_termination_witness :
    scanWithRetries (fun _ => ⟨0, 0, 0, 0⟩) = [150, 400, 900, 1800] :=
  (claim_C1_retry_termination (fun _ => ⟨0, 0, 0, 0⟩)
    (fun _ => ⟨rfl, rfl, rfl⟩)).1

/-- C2: a control whose input type is email, tel or url classifies to the
corresponding token regardless of any label, name, id, placeholder or
wrapper-class text. -/
theorem claim_C2_type_priority (el : FormControl) :
    (toLowerS el.type = "email" → guessToken el = some "email") ∧
    (toLowerS el.type = "tel" → guessToken el = some "tel") ∧
    (toLowerS el.type = "url" → guessToken el = some "url") :=
  guessToken_strong_type el

/-- Witness for C2: a control with `type="email"` and a name attribute
containing phone classifies as email. -/
theorem claim_C2_type_priority_witness :
    guessToken cEmailTypePhoneName = some "email" :=
  (claim_C2_type_priority cEmailTypePhoneName).1 (by decide)

/-- C8: when a fix routine throws during a pass that runs all registered
fixes, the exception is caught at the harness boundary and logged with the
fix's identifying name, every subsequently registered fix still runs in the
same pass on the state as it was, and the pass as a whole returns normally. -/
theorem claim_C8_exception_isolation {St : Type} (n : String)
    (f : St → Except String St) (rest : List (String × (St → Except String St)))
    (st : St) (e : String) (h : f st = Except.error e) :
    runAllFixes ((n, f) :: rest) st =
      ((runAllFixes rest st).1, n :: (runAllFixes rest st).2) := by
  simp only [runAllFixes, h]

/-- Witness for C8: a throwing first fix does not stop the second fix, whose
effect (incrementing the state) still happens, and the first fix's name is
logged. -/
theorem claim_C8_exception_isolation_witness :
    runAllFixes [("boom", fun _ => Except.error "x"),
      ("inc", fun k => Except.ok (k + 1))] (0 : Nat) = (1, ["boom"]) :=
  (claim_C8_exception_isolation "boom" (fun _ => Except.error "x")
    [("inc", fun k => Except.ok (k + 1))] 0 "x" rfl).trans rfl

/-- C3 counterexample: the control `cPhoneNotes` has a normalized corpus
containing the whole word `notes`, yet the classifier returns the token
`tel` (from the earlier phone rule) rather than the null result the claim
requires: the negative overrides do not beat earlier positive rules. -/
theorem claim_C3_counterexample :
    hasWord (corpusOf cPhoneNotes) "notes" = true ∧
    guessToken cPhoneNotes = some "tel" := by
  decide

/-- C3 amended: the negative checks for message, comments, notes, date and
time are evaluated only after every positive rule has failed, so they null
out a control only when no earlier positive rule matches; in particular a
control whose aggregated text is `Additional notes about your message`
(which matches no positive rule) classifies to null. -/
theorem claim_C3_negative_overrides_amended :
    guessToken cNotesMessage = none ∧
    hasWord (corpusOf cNotesMessage) "notes" = true ∧
    hasWord (corpusOf cNotesMessage) "message" = true := by
  decide

/-- C6: a control with no strong type signal whose only textual signal is
the name attribute `username` is not classified as `name`: the bare name
rule matches on regex word boundaries, and `name` occurs in the corpus only
inside the word `username`. -/
theorem claim_C6_username_boundary (el : FormControl)
    (h1 : toLowerS el.type ≠ "email") (h2 : toLowerS el.type ≠ "tel")
    (h3 : toLowerS el.type ≠ "url") (hf : el.forLabelText = none)
    (hw : el.wrapLabelText = none) (ha : el.ariaLabelledbyTexts = [])
    (hc : el.fieldWrapClassName = none) (hn : el.name = some "username")
    (hid : el.id = "") (hp : el.placeholder = none) :
    guessToken el ≠ some "name" := by
  have hcorp : corpusOf el = corpusOf cUsername := by
    simp [corpusOf, getLabelText, hf, hw, ha, hc, hn, hid, hp, cUsername]
  unfold guessToken
  rw [if_neg h1, if_neg h2, if_neg h3, hcorp]
  decide

/-- Witness for C6 at the concrete `username` control. -/
theorem claim_C6_username_boundary_witness :
    guessToken cUsername ≠ some "name" :=
  claim_C6_username_boundary cUsername (by decide) (by decide) (by decide)
    rfl rfl rfl rfl rfl rfl rfl

/-- C7: every fix routine, modelled per element or per document state, is
idempotent: a second invocation on the result of a first invocation over
unchanged markup produces no attribute or DOM difference, except that
`fix_skipToMain` and the hidden-element repair of FIX-6B re-record only
their diagnostic trace entry (which the claim exempts).  Covered: FIX-1
desktop folders, FIX-2 mobile hamburger, FIX-3 focus outline, FIX-4 target
size, FIX-5 skip link, the FIX-6 per-control autocomplete enhancement
(whose second call reports one skip), the FIX-6B label repairs (hidden
elements, legend fill, for-rebinding, reCAPTCHA), FIX-7 focus order (whose
invocation performs no DOM mutation, only handler registration), FIX-8 link
purpose, FIX-9 contact links, FIX-10 PDF links, the empty-button repair and
the FIX-11 status announcer. -/
theorem claim_C7_fix_idempotence :
    (∀ (ts1 ts2 : String) (f : FolderEl),
      fix_desktopFolders ts2 (fix_desktopFolders ts1 f) = fix_desktopFolders ts1 f) ∧
    (∀ (ts1 ts2 : String) (l : LinkEl),
      fix_linkPurposeEnhancer ts2 (fix_linkPurposeEnhancer ts1 l) =
        fix_linkPurposeEnhancer ts1 l) ∧
    (∀ el : FormControl,
      applyEnhancements (applyEnhancements el).1 =
        ((applyEnhancements el).1, ⟨0, 0, 1⟩)) ∧
    (∀ (ts1 ts2 : String) (st : HamburgerState),
      fix_mobileHamburger ts2 (fix_mobileHamburger ts1 st) =
        fix_mobileHamburger ts1 st) ∧
    (∀ d : Option String,
      fix_focusOutlineSimple (fix_focusOutlineSimple d) =
        fix_focusOutlineSimple d) ∧
    (∀ (ts1 ts2 : String) (st : TargetSizeState),
      fix_targetSizeMinimum ts2 (fix_targetSizeMinimum ts1 st) =
        fix_targetSizeMinimum ts1 st) ∧
    (∀ (ts1 ts2 : String) (p : SkipPage),
      eraseSkipTrace (fix_skipToMain ts2 (fix_skipToMain ts1 p)) =
        eraseSkipTrace (fix_skipToMain ts1 p)) ∧
    (∀ (Dom : Type) (d : Dom),
      fix_focusOrderHelpers (fix_focusOrderHelpers d) = fix_focusOrderHelpers d) ∧
    (∀ (ts1 ts2 : String) (l : ContactLinkEl),
      fix_contactLinkContext ts2 (fix_contactLinkContext ts1 l) =
        fix_contactLinkContext ts1 l) ∧
    (∀ (ts1 ts2 : String) (l : PdfLinkEl),
      fix_pdfLinkEnhancer ts2 (fix_pdfLinkEnhancer ts1 l) =
        fix_pdfLinkEnhancer ts1 l) ∧
    (∀ (ts1 ts2 : String) (b : ButtonEl),
      fix_emptyButtons ts2 (fix_emptyButtons ts1 b) = fix_emptyButtons ts1 b) ∧
    (∀ (ts1 ts2 : String) (st : AnnouncerState),
      fix_formStatusAnnouncer ts2 (fix_formStatusAnnouncer ts1 st) =
        fix_formStatusAnnouncer ts1 st) ∧
    (∀ (ts1 ts2 : String) (e : HiddenEl),
      eraseHiddenTrace (fix_labelIssues_hidden ts2 (fix_labelIssues_hidden ts1 e)) =
        eraseHiddenTrace (fix_labelIssues_hidden ts1 e)) ∧
    (∀ (ts1 ts2 : String) (f : FieldsetEl),
      fix_labelIssues_fill ts2 (fix_labelIssues_fill ts1 f) =
        fix_labelIssues_fill ts1 f) ∧
    (∀ (ts1 ts2 : String) (st : LabelForEl),
      fix_labelIssues_rebind ts2 (fix_labelIssues_rebind ts1 st) =
        fix_labelIssues_rebind ts1 st) ∧
    (∀ e : RecaptchaEl,
      fix_labelIssues_recaptcha (fix_labelIssues_recaptcha e) =
        fix_labelIssues_recaptcha e) := by
  refine ⟨fun ts1 ts2 f => ?_, fun ts1 ts2 l => ?_, fun el => ?_,
    fix_mobileHamburger_idem, fix_focusOutlineSimple_idem,
    fix_targetSizeMinimum_idem, fix_skipToMain_idem,
    fun Dom d => rfl, fun ts1 ts2 l => ?_, fun ts1 ts2 l => ?_,
    fix_emptyButtons_idem, fix_formStatusAnnouncer_idem,
    fix_labelIssues_hidden_idem, fix_labelIssues_fill_idem,
    fix_labelIssues_rebind_idem, fun e => rfl⟩
  · exact fix_desktopFolders_skip ts2 _ (fix_desktopFolders_init ts1 f)
  · exact fix_linkPurposeEnhancer_skip ts2 _ (fix_linkPurposeEnhancer_init ts1 l)
  · exact applyEnhancements_skip _ (applyEnhancements_marks el)
  · exact fix_contactLinkContext_skip ts2 _ (fix_contactLinkContext_init ts1 l)
  · exact fix_pdfLinkEnhancer_skip ts2 _ (fix_pdfLinkEnhancer_init ts1 l)

/-- The trace value after FIX-5 touches a fresh element. -/
def traceAfterFix5 : String :=
  createTraceDataAttr "2025-01-01T00:00:00.000Z"
    "FIX-5 - Skip to Main Content applied" none

/-- The trace value after FIX-8 then touches the same element. -/
def traceAfterFix8 : String :=
  createTraceDataAttr "2025-01-01T00:00:01.000Z"
    "FIX-8 - Link Purpose Enhancement applied" (some traceAfterFix5)

/-- The trace value after FIX-8 records again on the same element. -/
def traceAfterFix8Again : String :=
  createTraceDataAttr "2025-01-01T00:00:02.000Z"
    "FIX-8 - Link Purpose Enhancement applied" (some traceAfterFix8)

/-- C9 counterexample: when a fix text already present is recorded again,
`createTraceDataAttr` replaces the whole attribute with a fresh single
entry: the previous value is not a prefix of the new value, and the entry
FIX-5 wrote earlier is discarded. -/
theorem claim_C9_counterexample :
    strStartsWith traceAfterFix8Again traceAfterFix8 = false ∧
    strIncludes traceAfterFix8Again "FIX-5" = false := by
  decide

/-- C9 amended: the utils helper `appendDataTraceAttr` is append-only (the
previous value is always a prefix of the new value), and `createTraceDataAttr`
appends pipe-delimited entries only while the fix text being recorded is not
already present in the attribute; a repeat recording of an already-present
fix text overwrites the attribute with a fresh single entry. -/
theorem claim_C9_trace_append_amended :
    (∀ (p t : String), p ≠ "" →
      appendDataTraceAttr t (some p) = p ++ " | " ++ t) ∧
    (∀ (ts ft ex : String), ex ≠ "" → strIncludes ex ft = false →
      createTraceDataAttr ts ft (some ex) =
        ex ++ " | " ++ createTraceDataAttr ts ft none) := by
  constructor
  · intro p t hp
    simp [appendDataTraceAttr, hp]
  · intro ts ft ex hex hinc
    simp [createTraceDataAttr, hex, hinc]

/-- Witness for the amended C9 at concrete trace values. -/
theorem claim_C9_trace_append_amended_witness :
    appendDataTraceAttr "FIX-8 - B" (some "FIX-5 - A") =
      "FIX-5 - A" ++ " | " ++ "FIX-8 - B" ∧
    createTraceDataAttr "T" "FIX-8 - B" (some "FIX-5 - A") =
      "FIX-5 - A" ++ " | " ++ createTraceDataAttr "T" "FIX-8 - B" none :=
  ⟨claim_C9_trace_append_amended.1 "FIX-5 - A" "FIX-8 - B" (by decide),
   claim_C9_trace_append_amended.2 "T" "FIX-8 - B" "FIX-5 - A" (by decide)
     (by decide)⟩

/-- C10: `applyEnhancements` sets the per-element processed marker
unconditionally at the end of its first run (even when the classifier
returned null and nothing was written); every call on a marked control
returns zero updated, zero cleaned, one skipped and mutates nothing; and in
particular a control already processed is never reclassified even when its
wrapping label text changes afterwards. -/
theorem claim_C10_one_shot_marker :
    (∀ el : FormControl, (applyEnhancements el).1.autocompleteFixed = some "1") ∧
    (∀ el : FormControl, el.autocompleteFixed = some "1" →
      applyEnhancements el = (el, ⟨0, 0, 1⟩)) ∧
    (∀ (el : FormControl) (lbl : Option String),
      applyEnhancements { (applyEnhancements el).1 with wrapLabelText := lbl } =
        ({ (applyEnhancements el).1 with wrapLabelText := lbl }, ⟨0, 0, 1⟩)) := by
  refine ⟨applyEnhancements_marks, fun el h => applyEnhancements_skip el h,
    fun el lbl => ?_⟩
  exact applyEnhancements_skip _ (applyEnhancements_marks el)

/-- Witness for C10: a marked control with late-arriving label text is
skipped unchanged. -/
theorem claim_C10_one_shot_marker_witness :
    applyEnhancements cMarkedLate = (cMarkedLate, ⟨0, 0, 1⟩) :=
  claim_C10_one_shot_marker.2.1 cMarkedLate rfl

/-- C4: processing the not-yet-processed input with `autocomplete="false"`
and an associated label reading `First Name` results in
`autocomplete="given-name"`; and on any not-yet-processed control carrying
the literal `false` value, that value is removed before classification and
never remains on the element, whatever the classification outcome. -/
theorem claim_C4_autocomplete_false :
    (applyEnhancements cFirstName).1.autocomplete = some "given-name" ∧
    ∀ el : FormControl, el.autocompleteFixed ≠ some "1" →
      el.autocomplete = some "false" →
      (applyEnhancements el).1.autocomplete ≠ some "false" := by
  constructor
  · decide
  · intro el hm hac
    have hclean : cleanFalse el = ({ el with autocomplete := none }, 1) := by
      unfold cleanFalse
      rw [if_pos hac]
    have hne : guessToken { el with autocomplete := none } ≠ some "false" :=
      guessToken_ne_false _
    unfold applyEnhancements
    rw [if_neg hm, hclean]
    dsimp only
    rcases hg : guessToken { el with autocomplete := none } with _ | tok
    · simp [normalizeTelNational]
    · dsimp only
      have hs := setTokenAttrs_autocomplete (toLowerS el.type) tok
        { el with autocomplete := none }
      unfold normalizeTelNational
      by_cases hTN : (setTokenAttrs (toLowerS el.type) tok
          { el with autocomplete := none }).1.autocomplete = some "tel-national"
      · rw [if_pos hTN]
        dsimp only
        decide
      · rw [if_neg hTN]
        dsimp only
        rw [hs]
        exact hg ▸ hne

/-- Witness for C4: the literal `false` value does not survive processing of
the First Name control. -/
theorem claim_C4_autocomplete_false_witness :
    (applyEnhancements cFirstName).1.autocomplete ≠ some "false" :=
  claim_C4_autocomplete_false.2 cFirstName (by decide) rfl

/-- C5: processing a not-yet-processed input with `type="tel"` and
`autocomplete="tel-national"` results in `autocomplete="tel"` and
`inputmode="tel"`, for any label, name, id, placeholder or wrapper-class
text (the classification of a tel-typed control is always `tel`, so the
non-standard regional value never survives). -/
theorem claim_C5_tel_national (el : FormControl)
    (hm : el.autocompleteFixed ≠ some "1") (ht : el.type = "tel")
    (hac : el.autocomplete = some "tel-national") :
    (applyEnhancements el).1.autocomplete = some "tel" ∧
    (applyEnhancements el).1.inputmode = some "tel" := by
  have hclean : cleanFalse el = (el, 0) := by
    unfold cleanFalse
    rw [if_neg (show ¬el.autocomplete = some "false" by rw [hac]; decide)]
  have hg : guessToken el = some "tel" := by
    unfold guessToken
    rw [ht]
    rfl
  have hs := setTokenAttrs_autocomplete (toLowerS el.type) "tel" el
  have hi := setTokenAttrs_tel_inputmode (toLowerS el.type) el
  unfold applyEnhancements
  rw [if_neg hm, hclean]
  dsimp only
  rw [hg]
  dsimp only
  unfold normalizeTelNational
  rw [if_neg (show ¬(setTokenAttrs (toLowerS el.type) "tel" el).1.autocomplete
      = some "tel-national" by rw [hs]; decide)]
  dsimp only
  exact ⟨hs, hi⟩

/-- Witness for C5 at the concrete tel-national control. -/
theorem claim_C5_tel_national_witness :
    (applyEnhancements cTelNational).1.autocomplete = some "tel" ∧
    (applyEnhancements cTelNational).1.inputmode = some "tel" :=
  claim_C5_tel_national cTelNational (by decide) rfl rfl

end SqspWcag
